import Mathlib

/-!
Verification development for the jira-reopen-reports repository.

The development shallowly embeds the two Python components:
* `scripts/export_jira.py` — field resolution (`normalize_name`,
  `build_field_indexes`, `resolve_cf_id`), the multi-endpoint search
  (`jira_search_any`), the pagination loop and the row flattening in `main`.
* `scripts/reports.py` — reopen-event extraction (`_extract_reopen_events`),
  project derivation (`_issue_key_to_project`) and the month-filtered
  aggregation in `process`.

Python string primitives (`strip`, `lower`, `splitlines`, `find`,
`startswith`, substring search, the two regexes) are modelled over `List Char`
so that every definition is executable and kernel-reducible.  The models
restrict `\d` and whitespace to their ASCII meaning, and line splitting to
`'\n'`; every input appearing in the claims is ASCII text without exotic
terminators, where the Python behaviour coincides.
-/

/-- Python `str.strip()` (ASCII whitespace): drop leading and trailing
whitespace characters. -/
def pyStrip (s : String) : String :=
  String.mk (((s.toList.dropWhile Char.isWhitespace).reverse.dropWhile
      Char.isWhitespace).reverse)

/-- Python `str.lower()` (ASCII letters). -/
def pyLower (s : String) : String :=
  String.mk (s.toList.map Char.toLower)

/-- Does the list `l` start with the list `n`?  (Python `startswith` over
character lists.) -/
def listStarts : List Char → List Char → Bool
  | [], _ => true
  | _ :: _, [] => false
  | a :: n, b :: l => a == b && listStarts n l

/-- Python `needle in hay` substring test over character lists. -/
def hasSubL (n : List Char) : List Char → Bool
  | [] => listStarts n []
  | c :: t => listStarts n (c :: t) || hasSubL n t

/-- Python `str.startswith`: `pyStarts pre s` is `s.startswith(pre)`. -/
def pyStarts (pre s : String) : Bool :=
  listStarts pre.toList s.toList

/-- Python `str.endswith`: `pyEnds suf s` is `s.endswith(suf)`. -/
def pyEnds (suf s : String) : Bool :=
  listStarts suf.toList.reverse s.toList.reverse

/-- Python substring test: `pyContains needle hay` is `needle in hay`. -/
def pyContains (needle hay : String) : Bool :=
  hasSubL needle.toList hay.toList

/-- Python `str.find` restricted to a single character: index of the first
occurrence, `none` when absent (Python returns `-1`). -/
def pyFind (c : Char) : List Char → Option Nat
  | [] => none
  | a :: l => if a = c then some 0 else (pyFind c l).map (· + 1)

/-- Python `str.splitlines()` over character lists, with `'\n'` as the line
terminator: a trailing terminator does not produce a final empty line. -/
def splitLinesL : List Char → List (List Char)
  | [] => []
  | c :: t =>
    if c = '\n' then [] :: splitLinesL t
    else
      match splitLinesL t with
      | [] => [[c]]
      | line :: rest => (c :: line) :: rest

/-- Python `str.splitlines()`. -/
def pySplitlines (s : String) : List String :=
  (splitLinesL s.toList).map (fun l => String.mk l)

/-- Python `sep.join(parts)`. -/
def pyJoin (sep : String) : List String → String
  | [] => ""
  | [x] => x
  | x :: y :: xs => x ++ sep ++ pyJoin sep (y :: xs)

/-! ## Reporter: reopen-event extraction (`scripts/reports.py`) -/

/-- One row of the exporter's CSV as consumed by `reports.process`
(after the `fillna('')` normalisation all relevant cells are strings). -/
structure CsvRow where
  issueKey : String
  issueType : String
  summary : String
  assignee : String
  reopenLog : String
deriving DecidableEq, Repr

/-- A reopen event `(Issue key, Issue Type, Summary, Assignee, Date)` as
produced by `_extract_reopen_events`. -/
structure Event where
  issueKey : String
  issueType : String
  summary : String
  assignee : String
  date : String
deriving DecidableEq, Repr

/-- Attempt to match the regex `\d{4}-\d{2}-\d{2}` (`DATE_RE`) at the head of
the character list, returning the matched characters. -/
def matchDateAt : List Char → Option (List Char)
  | y1 :: y2 :: y3 :: y4 :: s1 :: m1 :: m2 :: s2 :: d1 :: d2 :: _ =>
    if y1.isDigit && y2.isDigit && y3.isDigit && y4.isDigit && s1 == '-'
        && m1.isDigit && m2.isDigit && s2 == '-' && d1.isDigit && d2.isDigit then
      some [y1, y2, y3, y4, s1, m1, m2, s2, d1, d2]
    else none
  | _ => none

/-- `DATE_RE.search`: leftmost match of `\d{4}-\d{2}-\d{2}`. -/
def findDateL : List Char → Option (List Char)
  | [] => none
  | c :: t =>
    match matchDateAt (c :: t) with
    | some d => some d
    | none => findDateL t

/-- `DATE_RE.search(line)` returning `group(1)`. -/
def findDate (line : String) : Option String :=
  (findDateL line.toList).map (fun l => String.mk l)

/-- The literal marker of `ASSIGNEE_RE`. -/
def assigneeMarker : List Char := "Assignee:".toList

/-- Characters following the first occurrence of `"Assignee:"`, or `none`
when the marker is absent. -/
def afterMarkerL : List Char → Option (List Char)
  | [] => none
  | c :: t =>
    if listStarts assigneeMarker (c :: t) then
      some ((c :: t).drop assigneeMarker.length)
    else afterMarkerL t

/-- `ASSIGNEE_RE.search(line)` followed by `.group(1).strip()`: within a
single line (no `'\n'`), `Assignee:\s*(.*?)(?:\n|$)` captures everything
after the marker up to end of line modulo surrounding whitespace. -/
def findAssignee (line : String) : Option String :=
  (afterMarkerL line.toList).map (fun r => pyStrip (String.mk r))

/-- The event emitted for one date-bearing line (`events.append(...)` body in
`_extract_reopen_events`). -/
def mkEvent (row : CsvRow) (line : String) (dateStr : String) : Event :=
  { issueKey := row.issueKey
    issueType := row.issueType
    summary := row.summary
    assignee := (findAssignee line).getD row.assignee
    date := dateStr }

/-- The `for line in text.splitlines()` loop of `_extract_reopen_events`. -/
def extractLoop (row : CsvRow) : List String → List Event
  | [] => []
  | line :: rest =>
    match findDate line with
    | none => extractLoop row rest
    | some d => mkEvent row line d :: extractLoop row rest

/-- `_extract_reopen_events(row)`. -/
def extractReopenEvents (row : CsvRow) : List Event :=
  extractLoop row (pySplitlines row.reopenLog)

/-- `_issue_key_to_project(issue_key)`: `i = issue_key.find('-')`, then
`issue_key[:i] if i > 0 else ''`. -/
def issueKeyToProject (key : String) : String :=
  match pyFind '-' key.toList with
  | some i => if 0 < i then String.mk (key.toList.take i) else ""
  | none => ""

/-- Modelled from the spec's words for comparison with `issueKeyToProject`:
"the substring before the first hyphen, and the empty string when the key
contains no hyphen". -/
def specProjectOf (key : String) : String :=
  if '-' ∈ key.toList then
    String.mk (key.toList.takeWhile (fun c => c != '-'))
  else ""

/-! ## Exporter: field resolution (`scripts/export_jira.py`) -/

/-- A field descriptor from `/rest/api/3/field`.  `build_field_indexes` reads
`f.get("id")` and `f.get("name") or ""`; a missing/null value is modelled as
the empty string (Python treats both as falsy in the guards it applies). -/
structure JField where
  id : String
  name : String
deriving DecidableEq, Repr

/-- `by_name.setdefault(key, []).append(f)`: insertion-ordered association
list, appending to the entry of an existing key. -/
def addByName (m : List (String × List JField)) (key : String) (f : JField) :
    List (String × List JField) :=
  match m with
  | [] => [(key, [f])]
  | (k, lst) :: rest =>
    if k = key then (k, lst ++ [f]) :: rest
    else (k, lst) :: addByName rest key f

/-- `by_id[fid] = f`: insertion-ordered association list with overwrite. -/
def addById (m : List (String × JField)) (fid : String) (f : JField) :
    List (String × JField) :=
  match m with
  | [] => [(fid, f)]
  | (k, g) :: rest =>
    if k = fid then (k, f) :: rest
    else (k, g) :: addById rest fid f

/-- The `by_name` index of `build_field_indexes`: key is the stripped,
lowercased display name; only fields with a nonempty stripped name enter. -/
def buildByName (fields : List JField) : List (String × List JField) :=
  fields.foldl
    (fun m f =>
      let nm := pyStrip f.name
      if nm ≠ "" then addByName m (pyLower nm) f else m)
    []

/-- The `by_id` index of `build_field_indexes`: only fields with a truthy
(nonempty) id enter. -/
def buildById (fields : List JField) : List (String × JField) :=
  fields.foldl (fun m f => if f.id ≠ "" then addById m f.id f else m) []

/-- `normalize_name`: strip, lowercase, drop a bracketed suffix, strip. -/
def normalizeName (s : String) : String :=
  let t := pyLower (pyStrip s)
  if t.toList.contains '[' then
    pyStrip (String.mk (t.toList.takeWhile (fun c => c != '[')))
  else t

/-- Which rule of `resolve_cf_id` produced the result (the function's second
return value, an explanatory string, abstracted to its case). -/
inductive Via where
  | vId
  | vSuffix
  | vExact
  | vNorm
  | vStarts
  | vContains
deriving DecidableEq, Repr

/-- `by_name[...][0]["id"]`: the id of the first field of a (by construction
nonempty) bucket. -/
def headIdOf (lst : List JField) : String :=
  match lst with
  | [] => ""
  | f :: _ => f.id

/-- The first `for key, lst in by_name.items()` loop of `resolve_cf_id`:
each key is tested for normalized equality and then for prefix match. -/
def resolveLoop1 (norm : String) : List (String × List JField) →
    Option (String × Via)
  | [] => none
  | (key, lst) :: rest =>
    if normalizeName key = norm then some (headIdOf lst, .vNorm)
    else if pyStarts norm key then some (headIdOf lst, .vStarts)
    else resolveLoop1 norm rest

/-- The second `for key, lst in by_name.items()` loop of `resolve_cf_id`:
substring (contains) match, guarded by a nonempty normalized name. -/
def resolveLoop2 (norm : String) : List (String × List JField) →
    Option (String × Via)
  | [] => none
  | (key, lst) :: rest =>
    if norm ≠ "" && pyContains norm key then some (headIdOf lst, .vContains)
    else resolveLoop2 norm rest

/-- `resolve_cf_id(base_url, auth, wanted_name, wanted_id, all_fields)`.
`wantedId = ""` models an unset/empty override (falsy in Python).  The
returned diagnostic string is abstracted to a `Via` tag; the not-found
branch returns `none`. -/
def resolveCfId (wantedName wantedId : String) (fields : List JField) :
    Option (String × Via) :=
  let byName := buildByName fields
  let byId := buildById fields
  if wantedId ≠ "" then
    if (List.lookup wantedId byId).isSome then some (wantedId, .vId)
    else
      match (byId.map Prod.fst).filter (fun fid => pyEnds wantedId fid) with
      | [] => none
      | fid :: _ => some (fid, .vSuffix)
  else
    let norm := normalizeName wantedName
    match List.lookup norm byName with
    | some lst => some (headIdOf lst, .vExact)
    | none =>
      match resolveLoop1 norm byName with
      | some r => some r
      | none => resolveLoop2 norm byName

/-- First entry of `byName` whose key satisfies `p`. -/
def findEntry (p : String → Bool) : List (String × List JField) →
    Option (List JField)
  | [] => none
  | (key, lst) :: rest => if p key then some lst else findEntry p rest

/-- Modelled from the spec's words for comparison with `resolveCfId`
(no-override path): match "in order: exact match, normalized-equality match,
prefix match, substring match" as four sequential passes over the
descriptors. -/
def resolveSpecOrder (wantedName : String) (fields : List JField) :
    Option String :=
  let byName := buildByName fields
  let norm := normalizeName wantedName
  match List.lookup norm byName with
  | some lst => some (headIdOf lst)
  | none =>
    match findEntry (fun key => normalizeName key == norm) byName with
    | some lst => some (headIdOf lst)
    | none =>
      match findEntry (fun key => pyStarts norm key) byName with
      | some lst => some (headIdOf lst)
      | none =>
        match findEntry (fun key => !(norm == "") && pyContains norm key)
            byName with
        | some lst => some (headIdOf lst)
        | none => none

/-! ## Exporter: issue flattening (`main`, lines 242–262) -/

/-- The value of the reopen-count custom field in an issue's `fields`
object: missing key, JSON null, or a value (rendered verbatim into the CSV,
modelled as the string it prints as). -/
inductive CountVal where
  | absent
  | nullv
  | val (s : String)
deriving DecidableEq, Repr

/-- The value of the reopen-log custom field: missing key, JSON null, a
string, or a multi-valued structure (list of elements, modelled by the
strings they print as). -/
inductive LogVal where
  | absent
  | nullv
  | strv (s : String)
  | listv (l : List String)
deriving DecidableEq, Repr

/-- The `issuetype` sub-object; `name` is `none` when missing or null
(`.get("name", "") or ""` maps both to `""`). -/
structure IssueTypeJson where
  name : Option String
deriving DecidableEq, Repr

/-- The `assignee` sub-object of an issue. -/
structure AssigneeJson where
  displayName : Option String
  accountId : Option String
deriving DecidableEq, Repr

/-- The `fields` object of an issue, restricted to the keys `main` reads. -/
structure FieldsJson where
  issuetype : Option IssueTypeJson
  assignee : Option AssigneeJson
  summary : Option String
  reopenCount : CountVal
  reopenLog : LogVal
deriving DecidableEq, Repr

/-- An issue object from a search response. -/
structure IssueJson where
  key : Option String
  id : Option String
  fields : Option FieldsJson
deriving DecidableEq, Repr

/-- `issue.get("fields") or {}` for a missing/null `fields` object. -/
def emptyFieldsJson : FieldsJson :=
  { issuetype := none, assignee := none, summary := none
    reopenCount := .absent, reopenLog := .absent }

/-- The row-building body of the pagination loop in `main`: one flat CSV row
per issue. -/
def flattenIssue (issue : IssueJson) : List String :=
  let f := issue.fields.getD emptyFieldsJson
  let issType :=
    match f.issuetype with
    | none => ""
    | some it => it.name.getD ""
  let a := f.assignee.getD { displayName := none, accountId := none }
  let assigneeName := a.displayName.getD ""
  let assigneeId := a.accountId.getD ""
  let reopenCountVal :=
    match f.reopenCount with
    | .absent => ""
    | .nullv => ""
    | .val s => s
  let reopenLogVal :=
    match f.reopenLog with
    | .absent => ""
    | .nullv => ""
    | .strv s => s
    | .listv l => pyJoin "; " l
  [issue.key.getD "", issType, issue.id.getD "", f.summary.getD "",
    assigneeName, assigneeId, reopenCountVal, reopenLogVal]

/-! ## Exporter: multi-endpoint search and pagination (`jira_search_any`,
`main` loop) -/

/-- Outcome of one HTTP request: a successful (`r.ok`) response carrying the
decoded JSON body, a non-success status, or a raised exception. -/
inductive ReqResult (α : Type) where
  | ok (a : α)
  | httpFail (status : Nat)
  | exc
deriving DecidableEq, Repr

/-- A search response body, restricted to the keys the exporter reads.
Every key may be absent (`none`): downstream reads use `.get` defaults. -/
structure SearchBody where
  issues : List IssueJson
  startAt : Option Nat
  maxResults : Option Nat
  total : Option Nat
deriving DecidableEq, Repr

/-- The outcomes the three endpoint candidates would produce for one page
request.  Candidate 1 (`POST /rest/api/3/jql/search`) returns a `results`
array of page objects (`out.get("results") or []` maps missing/null to the
empty list); candidates 2 and 3 return a search body directly. -/
structure Outcomes where
  c1 : ReqResult (List SearchBody)
  c2 : ReqResult SearchBody
  c3 : ReqResult SearchBody
deriving DecidableEq, Repr

/-- `jira_search_any`, additionally reporting which candidate (0, 1 or 2)
produced the returned body; `none` models `sys.exit(1)` after all three
candidates fail. -/
def jiraSearchAnyE (o : Outcomes) (startAt : Nat) :
    Option (SearchBody × Nat) :=
  match o.c1 with
  | .ok results =>
    match results with
    | [] =>
      some ({ issues := [], startAt := some startAt, maxResults := some 100
              total := some 0 }, 0)
    | page :: _ =>
      some ({ issues := page.issues
              startAt := some (page.startAt.getD startAt)
              maxResults := some (page.maxResults.getD 100)
              total := some (page.total.getD 0) }, 0)
  | _ =>
    match o.c2 with
    | .ok d => some (d, 1)
    | _ =>
      match o.c3 with
      | .ok d => some (d, 2)
      | _ => none

/-- `jira_search_any` proper: the returned body. -/
def jiraSearchAny (o : Outcomes) (startAt : Nat) : Option SearchBody :=
  (jiraSearchAnyE o startAt).map Prod.fst

/-- Was the request successful (`r.ok`)? -/
def isOkR {α : Type} : ReqResult α → Bool
  | .ok _ => true
  | _ => false

/-- The candidate-2-then-3 tail of `jira_search_any`. -/
def fallback23 (r2 r3 : ReqResult SearchBody) : Option SearchBody :=
  match r2 with
  | .ok d => some d
  | _ =>
    match r3 with
    | .ok d => some d
    | _ => none

/-- Index of the first candidate with a successful response, in the fixed
preference order 0, 1, 2. -/
def firstOkEndpoint (o : Outcomes) : Option Nat :=
  match o.c1 with
  | .ok _ => some 0
  | _ =>
    match o.c2 with
    | .ok _ => some 1
    | _ =>
      match o.c3 with
      | .ok _ => some 2
      | _ => none

/-- The pagination loop of `main` (lines 232–267).  `oracle k` gives the
candidate outcomes for the `k`-th page request; the result pairs the
accumulated flattened rows with the trace of candidate indices that served
each page.  `fuel` bounds the number of iterations (the Python loop has no
such bound; every run examined here terminates within its fuel);
`none` models `sys.exit(1)` or fuel exhaustion. -/
def runPages (oracle : Nat → Outcomes) :
    Nat → Nat → Nat → Option Nat → Option (List (List String) × List Nat)
  | 0, _, _, _ => none
  | fuel + 1, pageIdx, startAt, total =>
    match jiraSearchAnyE (oracle pageIdx) startAt with
    | none => none
    | some (data, e) =>
      let rows := data.issues.map flattenIssue
      let total' := data.total.getD (total.getD 0)
      let maxResults := data.maxResults.getD 100
      let startAt' := startAt + maxResults
      if total' ≤ startAt' then some (rows, [e])
      else
        match runPages oracle fuel (pageIdx + 1) startAt' (some total') with
        | none => none
        | some (rs, tr) => some (rows ++ rs, e :: tr)

/-- The whole paginated export: first page at `start_at = 0`, no total yet. -/
def runExport (oracle : Nat → Outcomes) (fuel : Nat) :
    Option (List (List String) × List Nat) :=
  runPages oracle fuel 0 0 none

/-! ## Reporter: month filter and aggregation (`process`) -/

/-- Decimal digit value of an ASCII digit character. -/
def digitVal (c : Char) : Nat := c.toNat - '0'.toNat

/-- Gregorian leap-year rule (as used by `pandas.to_datetime`). -/
def isLeapYear (y : Nat) : Bool :=
  y % 4 == 0 && (y % 100 != 0 || y % 400 == 0)

/-- Number of days of month `m` of year `y`. -/
def daysInMonth (y m : Nat) : Nat :=
  if m == 2 then (if isLeapYear y then 29 else 28)
  else if m == 4 || m == 6 || m == 9 || m == 11 then 30
  else 31

/-- `pd.to_datetime(date_str, errors='coerce')` for a `YYYY-MM-DD`-shaped
string: the calendar date `(year, month, day)` when valid, `none` (NaT)
otherwise. -/
def parseDate (s : String) : Option (Nat × Nat × Nat) :=
  match s.toList with
  | [y1, y2, y3, y4, s1, m1, m2, s2, d1, d2] =>
    if y1.isDigit && y2.isDigit && y3.isDigit && y4.isDigit && s1 == '-'
        && m1.isDigit && m2.isDigit && s2 == '-' && d1.isDigit && d2.isDigit then
      let y := ((digitVal y1 * 10 + digitVal y2) * 10 + digitVal y3) * 10
          + digitVal y4
      let m := digitVal m1 * 10 + digitVal m2
      let d := digitVal d1 * 10 + digitVal d2
      if 1 ≤ m ∧ m ≤ 12 ∧ 1 ≤ d ∧ d ≤ daysInMonth y m then some (y, m, d)
      else none
    else none
  | _ => none

/-- Decimal rendering of `n` left-padded with zeros to width `w`. -/
def padZeros (w n : Nat) : String :=
  let s := toString n
  String.mk (List.replicate (w - s.length) '0') ++ s

/-- The `YYYY-MM` rendering of a month (`.dt.to_period('M').astype(str)` for
a valid date). -/
def monthStr (y m : Nat) : String :=
  padZeros 4 y ++ "-" ++ padZeros 2 m

/-- The `Month` column value: `"NaT"` for an unparseable date (the string
form of a NaT period), `YYYY-MM` otherwise. -/
def periodStr : Option (Nat × Nat × Nat) → String
  | none => "NaT"
  | some (y, m, _) => monthStr y m

/-- Lines 69–71 of `process`: parse the `Date` column, derive the `Month`
column and keep the rows whose month equals the target month. -/
def filterMonth (events : List Event) (month : String) : List Event :=
  events.filter (fun e => periodStr (parseDate e.date) == month)

/-- The `re.match(r'^\d{4}-\d{2}$', month)` validation of the `MONTH`
environment value. -/
def monthFormat (s : String) : Bool :=
  match s.toList with
  | [a, b, c, d, e, f, g] =>
    a.isDigit && b.isDigit && c.isDigit && d.isDigit && e == '-'
      && f.isDigit && g.isDigit
  | _ => false

/-- The `all_events` accumulation of `process`: events of every row, in row
order. -/
def allEvents (rows : List CsvRow) : List Event :=
  rows.flatMap extractReopenEvents

/-- Grouping key of `reopens_by_user.csv`: `(Project, Assignee)`. -/
def keyUser (e : Event) : String × String :=
  (issueKeyToProject e.issueKey, e.assignee)

/-- Grouping key of `reopens_by_ticket.csv`:
`(Issue key, Issue Type, Summary, Assignee)`. -/
def keyTicket (e : Event) : String × String × String × String :=
  (e.issueKey, e.issueType, e.summary, e.assignee)

/-- Boolean `≤` on strings (lexicographic, pandas column order). -/
def strLe (a b : String) : Bool := decide (a ≤ b)

/-- Lexicographic `≤` on a pair: strict order on the first component, tie
broken by the second. -/
def lexLe {α β : Type} [LinearOrder α] (leB : β → β → Bool) (a b : α × β) :
    Bool :=
  decide (a.1 < b.1) || (decide (a.1 = b.1) && leB a.2 b.2)

/-- Column order `['Project', 'Assignee']` of the by-user sort. -/
def leUser : (String × String) → (String × String) → Bool :=
  lexLe strLe

/-- Column order of the by-ticket grouping key (pandas `groupby` with
`sort=True` orders groups lexicographically by the full key tuple). -/
def leTicket4 : (String × String × String × String) →
    (String × String × String × String) → Bool :=
  lexLe (lexLe (lexLe strLe))

/-- Sort key `['Assignee', 'Issue key']` of the by-ticket output. -/
def leTicketSort (a b : (String × String × String × String) × Nat) : Bool :=
  leUser (a.1.2.2.2, a.1.1) (b.1.2.2.2, b.1.1)

/-- `groupby(keys).size().reset_index(...)` with `sort=True`: the distinct
key tuples in ascending key order, each with the number of events carrying
it. -/
def groupCounts {E K : Type} [DecidableEq K] (le : K → K → Bool)
    (key : E → K) (events : List E) : List (K × Nat) :=
  ((events.map key).dedup.mergeSort le).map
    (fun k => (k, events.countP (fun e => decide (key e = k))))

/-- The `reopens_by_user.csv` data rows of `process` for a given input.
When no events were extracted at all, `process` returns early with
header-only files (lines 63–66); the by-user output groups by
`(Project, Assignee)` and sorts by the same columns (which the sorted
`groupby` already ordered). -/
def byUser (rows : List CsvRow) (month : String) :
    List ((String × String) × Nat) :=
  if allEvents rows = [] then []
  else groupCounts leUser keyUser (filterMonth (allEvents rows) month)

/-- The `reopens_by_ticket.csv` data rows of `process`: group by the
four-column key, then sort by `['Assignee', 'Issue key']`. -/
def byTicket (rows : List CsvRow) (month : String) :
    List ((String × String × String × String) × Nat) :=
  if allEvents rows = [] then []
  else
    (groupCounts leTicket4 keyTicket
        (filterMonth (allEvents rows) month)).mergeSort leTicketSort

/-- Header of `reopens_by_user.csv`. -/
def userHeader : List String := ["Project", "Assignee", "Reopens Count"]

/-- Header of `reopens_by_ticket.csv` (columns reordered on line 93). -/
def ticketHeader : List String :=
  ["Issue key", "Issue Type", "Summary", "Reopens Count", "Assignee"]

/-- The full `reopens_by_user.csv` file contents, one list of cells per
line. -/
def userFile (rows : List CsvRow) (month : String) : List (List String) :=
  userHeader :: (byUser rows month).map
    (fun g => [g.1.1, g.1.2, toString g.2])

/-- The full `reopens_by_ticket.csv` file contents, one list of cells per
line. -/
def ticketFile (rows : List CsvRow) (month : String) : List (List String) :=
  ticketHeader :: (byTicket rows month).map
    (fun g => [g.1.1, g.1.2.1, g.1.2.2.1, toString g.2, g.1.2.2.2])

/-! ## Concrete inputs used by counterexamples and witnesses -/

/-- A descriptor list with a bracket-suffixed display name. -/
def exFieldsBracket : List JField :=
  [{ id := "customfield_10001", name := "Reopen log [Short text]" }]

/-- Two descriptors where one name has a prefix match and a later one a
normalized-equality match for the request `"reopen"`. -/
def exFieldsMixed : List JField :=
  [{ id := "f1", name := "reopen x" }, { id := "f2", name := "reopen [y]" }]

/-- A two-page run where the first page is served by candidate 1 (candidate 0
fails with a 500) and the second page is served by candidate 0 again. -/
def oracleReprobe (k : Nat) : Outcomes :=
  if k = 0 then
    { c1 := .httpFail 500
      c2 := .ok { issues := [], startAt := some 0, maxResults := some 100
                  total := some 150 }
      c3 := .exc }
  else
    { c1 := .ok [{ issues := [], startAt := some 100, maxResults := some 100
                   total := some 150 }]
      c2 := .exc
      c3 := .exc }

/-- A CSV row whose log line names an assignee explicitly. -/
def exRowA : CsvRow :=
  { issueKey := "ABC-1", issueType := "Bug", summary := "SA"
    assignee := "Ann", reopenLog := "2025-09-02 reopened Assignee: Alice" }

/-- A CSV row whose log line has no marker (assignee falls back to the
row). -/
def exRowB : CsvRow :=
  { issueKey := "XY-2", issueType := "Task", summary := "SB"
    assignee := "Bob", reopenLog := "2025-09-03 reopened" }

/-! ## Helper lemmas -/

theorem strLe_trans :
    ∀ a b c : String, strLe a b = true → strLe b c = true →
      strLe a c = true := by
  intro a b c hab hbc
  simp only [strLe, decide_eq_true_eq] at *
  exact le_trans hab hbc

theorem strLe_antisymm :
    ∀ a b : String, strLe a b = true → strLe b a = true → a = b := by
  intro a b hab hba
  simp only [strLe, decide_eq_true_eq] at *
  exact le_antisymm hab hba

theorem strLe_total : ∀ a b : String, (strLe a b || strLe b a) = true := by
  intro a b
  simp only [strLe, Bool.or_eq_true, decide_eq_true_eq]
  exact le_total a b

theorem lexLe_trans {α β : Type} [LinearOrder α] {leB : β → β → Bool}
    (hB : ∀ x y z, leB x y = true → leB y z = true → leB x z = true) :
    ∀ a b c : α × β, lexLe leB a b = true → lexLe leB b c = true →
      lexLe leB a c = true := by
  rintro ⟨a1, a2⟩ ⟨b1, b2⟩ ⟨c1, c2⟩ hab hbc
  simp only [lexLe, Bool.or_eq_true, Bool.and_eq_true,
    decide_eq_true_eq] at *
  rcases hab with h1 | ⟨he1, h2⟩
  · rcases hbc with h1' | ⟨he1', h2'⟩
    · exact Or.inl (lt_trans h1 h1')
    · exact Or.inl (he1' ▸ h1)
  · rcases hbc with h1' | ⟨he1', h2'⟩
    · exact Or.inl (he1.symm ▸ h1')
    · exact Or.inr ⟨he1.trans he1', hB _ _ _ h2 h2'⟩

theorem lexLe_antisymm {α β : Type} [LinearOrder α] {leB : β → β → Bool}
    (hB : ∀ x y, leB x y = true → leB y x = true → x = y) :
    ∀ a b : α × β, lexLe leB a b = true → lexLe leB b a = true → a = b := by
  rintro ⟨a1, a2⟩ ⟨b1, b2⟩ hab hba
  simp only [lexLe, Bool.or_eq_true, Bool.and_eq_true,
    decide_eq_true_eq] at *
  rcases hab with h1 | ⟨he1, h2⟩
  · rcases hba with h1' | ⟨he1', h2'⟩
    · exact absurd h1' (lt_asymm h1)
    · exact absurd (he1' ▸ h1) (lt_irrefl a1)
  · rcases hba with h1' | ⟨he1', h2'⟩
    · exact absurd (he1 ▸ h1') (lt_irrefl b1)
    · cases he1
      rw [hB _ _ h2 h2']

theorem lexLe_total {α β : Type} [LinearOrder α] {leB : β → β → Bool}
    (hB : ∀ x y, (leB x y || leB y x) = true) :
    ∀ a b : α × β, (lexLe leB a b || lexLe leB b a) = true := by
  rintro ⟨a1, a2⟩ ⟨b1, b2⟩
  simp only [lexLe, Bool.or_eq_true, Bool.and_eq_true, decide_eq_true_eq]
  rcases lt_trichotomy a1 b1 with h | h | h
  · exact Or.inl (Or.inl h)
  · have h2 := hB a2 b2
    simp only [Bool.or_eq_true] at h2
    rcases h2 with h2 | h2
    · exact Or.inl (Or.inr ⟨h, h2⟩)
    · exact Or.inr (Or.inr ⟨h.symm, h2⟩)
  · exact Or.inr (Or.inl h)

theorem leUser_trans :
    ∀ a b c : String × String, leUser a b = true → leUser b c = true →
      leUser a c = true :=
  lexLe_trans strLe_trans

theorem leUser_antisymm :
    ∀ a b : String × String, leUser a b = true → leUser b a = true →
      a = b :=
  lexLe_antisymm strLe_antisymm

theorem leUser_total :
    ∀ a b : String × String, (leUser a b || leUser b a) = true :=
  lexLe_total strLe_total

theorem leTicket4_trans :
    ∀ a b c : String × String × String × String,
      leTicket4 a b = true → leTicket4 b c = true → leTicket4 a c = true :=
  lexLe_trans (lexLe_trans (lexLe_trans strLe_trans))

theorem leTicket4_antisymm :
    ∀ a b : String × String × String × String,
      leTicket4 a b = true → leTicket4 b a = true → a = b :=
  lexLe_antisymm (lexLe_antisymm (lexLe_antisymm strLe_antisymm))

theorem leTicket4_total :
    ∀ a b : String × String × String × String,
      (leTicket4 a b || leTicket4 b a) = true :=
  lexLe_total (lexLe_total (lexLe_total strLe_total))

theorem groupCounts_perm {E K : Type} [DecidableEq K] {le : K → K → Bool}
    (htrans : ∀ a b c, le a b = true → le b c = true → le a c = true)
    (hanti : ∀ a b, le a b = true → le b a = true → a = b)
    (htotal : ∀ a b, (le a b || le b a) = true)
    (key : E → K) {l₁ l₂ : List E} (h : l₁.Perm l₂) :
    groupCounts le key l₁ = groupCounts le key l₂ := by
  have hkeys : ((l₁.map key).dedup).Perm ((l₂.map key).dedup) :=
    (h.map key).dedup
  have hperm : (((l₁.map key).dedup).mergeSort le).Perm
      (((l₂.map key).dedup).mergeSort le) :=
    ((List.mergeSort_perm _ le).trans hkeys).trans
      (List.mergeSort_perm _ le).symm
  haveI : IsAntisymm K (fun a b => le a b = true) := ⟨hanti⟩
  have hs1 : List.Sorted (fun a b => le a b = true)
      (((l₁.map key).dedup).mergeSort le) :=
    List.sorted_mergeSort htrans htotal _
  have hs2 : List.Sorted (fun a b => le a b = true)
      (((l₂.map key).dedup).mergeSort le) :=
    List.sorted_mergeSort htrans htotal _
  have heq := List.eq_of_perm_of_sorted hperm hs1 hs2
  unfold groupCounts
  rw [heq]
  have hfun : (fun k => (k, l₁.countP (fun e => decide (key e = k))))
      = (fun k => (k, l₂.countP (fun e => decide (key e = k)))) := by
    funext k
    rw [h.countP_eq]
  rw [hfun]

theorem allEvents_perm {rows₁ rows₂ : List CsvRow} (h : rows₁.Perm rows₂) :
    (allEvents rows₁).Perm (allEvents rows₂) :=
  h.flatMap_right extractReopenEvents

theorem byUser_perm {rows₁ rows₂ : List CsvRow} (h : rows₁.Perm rows₂)
    (month : String) : byUser rows₁ month = byUser rows₂ month := by
  have he := allEvents_perm h
  unfold byUser
  by_cases h0 : allEvents rows₁ = []
  · have h0' : allEvents rows₂ = [] := by
      rw [h0] at he; exact he.symm.eq_nil
    rw [if_pos h0, if_pos h0']
  · have h0' : allEvents rows₂ ≠ [] := by
      intro hz; rw [hz] at he; exact h0 he.eq_nil
    rw [if_neg h0, if_neg h0']
    exact groupCounts_perm leUser_trans leUser_antisymm leUser_total
      keyUser (he.filter _)

theorem byTicket_perm {rows₁ rows₂ : List CsvRow} (h : rows₁.Perm rows₂)
    (month : String) : byTicket rows₁ month = byTicket rows₂ month := by
  have he := allEvents_perm h
  unfold byTicket
  by_cases h0 : allEvents rows₁ = []
  · have h0' : allEvents rows₂ = [] := by
      rw [h0] at he; exact he.symm.eq_nil
    rw [if_pos h0, if_pos h0']
  · have h0' : allEvents rows₂ ≠ [] := by
      intro hz; rw [hz] at he; exact h0 he.eq_nil
    rw [if_neg h0, if_neg h0']
    have hgp : (filterMonth (allEvents rows₁) month).Perm
        (filterMonth (allEvents rows₂) month) := he.filter _
    rw [groupCounts_perm leTicket4_trans leTicket4_antisymm leTicket4_total
      keyTicket hgp]

theorem extractLoop_eq_filterMap (row : CsvRow) (ls : List String) :
    extractLoop row ls
      = ls.filterMap (fun line => (findDate line).map (mkEvent row line)) := by
  induction ls with
  | nil => rfl
  | cons line rest ih =>
    rw [extractLoop, List.filterMap_cons]
    cases findDate line <;> simp [ih]

theorem pyFind_take {c : Char} :
    ∀ {l : List Char} {i : Nat}, pyFind c l = some i →
      l.take i = l.takeWhile (fun a => a != c) := by
  intro l
  induction l with
  | nil => intro i h; simp [pyFind] at h
  | cons a t ih =>
    intro i h
    rw [pyFind] at h
    by_cases hac : a = c
    · rw [if_pos hac] at h
      cases h
      simp [List.takeWhile_cons, hac]
    · rw [if_neg hac] at h
      rcases hj : pyFind c t with _ | j
      · rw [hj] at h; simp at h
      · rw [hj] at h
        cases h
        simp [List.takeWhile_cons, hac, ih hj]

theorem pyFind_isSome_iff {c : Char} :
    ∀ {l : List Char}, (pyFind c l).isSome ↔ c ∈ l := by
  intro l
  induction l with
  | nil => simp [pyFind]
  | cons a t ih =>
    rw [pyFind, List.mem_cons]
    by_cases hac : a = c
    · simp [hac]
    · rw [if_neg hac]
      have hne : ¬c = a := fun h => hac h.symm
      rcases hj : pyFind c t with _ | j <;> rw [hj] at ih <;> simp [hne, ← ih]

theorem monthFormat_length {s : String} (h : monthFormat s = true) :
    s.toList.length = 7 := by
  unfold monthFormat at h
  split at h
  · rename_i heq; rw [heq]; rfl
  · exact Bool.noConfusion h

theorem jiraSearchAnyE_snd (o : Outcomes) (s : Nat) :
    (jiraSearchAnyE o s).map Prod.snd = firstOkEndpoint o := by
  rcases o with ⟨c1, c2, c3⟩
  cases c1 with
  | ok rs => cases rs <;> rfl
  | httpFail st => cases c2 <;> cases c3 <;> rfl
  | exc => cases c2 <;> cases c3 <;> rfl

theorem runPages_trace (oracle : Nat → Outcomes) :
    ∀ (fuel pageIdx startAt : Nat) (total : Option Nat)
      (out : List (List String) × List Nat),
      runPages oracle fuel pageIdx startAt total = some out →
      ∀ i (hi : i < out.2.length),
        some (out.2.get ⟨i, hi⟩) = firstOkEndpoint (oracle (pageIdx + i)) := by
  intro fuel
  induction fuel with
  | zero =>
    intro pageIdx startAt total out h i hi
    exact absurd h (by simp [runPages])
  | succ n ih =>
    intro pageIdx startAt total out h i hi
    rw [runPages] at h
    rcases hs : jiraSearchAnyE (oracle pageIdx) startAt with _ | ⟨data, e⟩
    · rw [hs] at h
      exact absurd h (by simp)
    · rw [hs] at h
      have hend : firstOkEndpoint (oracle pageIdx) = some e := by
        rw [← jiraSearchAnyE_snd (oracle pageIdx) startAt, hs]
        rfl
      simp only at h
      split at h
      · cases h
        have hi0 : i = 0 := by
          simp at hi
          omega
        subst hi0
        simpa using hend.symm
      · rcases hr : runPages oracle n (pageIdx + 1)
            (startAt + data.maxResults.getD 100)
            (some (data.total.getD (total.getD 0))) with _ | ⟨rs, tr⟩
        · rw [hr] at h
          exact absurd h (by simp)
        · rw [hr] at h
          simp only at h
          cases h
          cases i with
          | zero => simpa using hend.symm
          | succ j =>
            have hj : j < tr.length := by
              simpa using hi
            have hrec := ih (pageIdx + 1) _ _ (rs, tr) hr j hj
            have harith : pageIdx + 1 + j = pageIdx + (j + 1) := by omega
            rw [harith] at hrec
            simpa using hrec

/-! ## Claim theorems -/

/-- Claim C9: `_issue_key_to_project` returns the substring before the first
hyphen (empty when the first hyphen is the first character, where that
substring is itself empty), the empty string when the key contains no
hyphen, and `"ABC"` on `"ABC-123"`. -/
theorem C9_project_derivation (key : String) :
    issueKeyToProject key = specProjectOf key
    ∧ ('-' ∉ key.toList → issueKeyToProject key = "")
    ∧ issueKeyToProject "ABC-123" = "ABC" := by
  have hmain : issueKeyToProject key = specProjectOf key := by
    unfold issueKeyToProject specProjectOf
    rcases hf : pyFind '-' key.toList with _ | i
    · have hmem : '-' ∉ key.toList := by
        rw [← pyFind_isSome_iff, hf]; simp
      rw [if_neg hmem]
    · have hmem : '-' ∈ key.toList := by
        rw [← pyFind_isSome_iff, hf]; simp
      rw [if_pos hmem, ← pyFind_take hf]
      rcases Nat.eq_zero_or_pos i with hz | hp
      · subst hz; simp
      · simp only [if_pos hp]
  refine ⟨hmain, ?_, by decide⟩
  intro hno
  rw [hmain]
  unfold specProjectOf
  rw [if_neg hno]

/-- Claim C9 witness: a key with no hyphen yields the empty project. -/
theorem C9_project_derivation_witness :
    issueKeyToProject "NOHYPHEN" = "" :=
  (C9_project_derivation "NOHYPHEN").2.1 (by decide)

/-- Claim C4: `_extract_reopen_events` emits exactly one event per line with
a `YYYY-MM-DD` date token — assignee taken from the `Assignee:` marker when
present, else from the row's Assignee column; issue key, issue type and
summary carried unchanged — and a log with zero date-bearing lines yields
zero events. -/
theorem C4_event_extraction (row : CsvRow) :
    extractReopenEvents row
      = (pySplitlines row.reopenLog).filterMap (fun line =>
          (findDate line).map (fun d =>
            { issueKey := row.issueKey, issueType := row.issueType
              summary := row.summary
              assignee := (findAssignee line).getD row.assignee
              date := d }))
    ∧ ((∀ line ∈ pySplitlines row.reopenLog, findDate line = none) →
        extractReopenEvents row = []) := by
  have hmain : extractReopenEvents row
      = (pySplitlines row.reopenLog).filterMap (fun line =>
          (findDate line).map (fun d =>
            { issueKey := row.issueKey, issueType := row.issueType
              summary := row.summary
              assignee := (findAssignee line).getD row.assignee
              date := d })) := by
    rw [extractReopenEvents, extractLoop_eq_filterMap]
    rfl
  refine ⟨hmain, ?_⟩
  intro hnone
  rw [hmain]
  rw [List.filterMap_eq_nil_iff]
  intro line hline
  rw [hnone line hline]
  rfl

/-- Claim C4 witness: a reopen log whose lines carry no date token yields no
events. -/
theorem C4_event_extraction_witness :
    extractReopenEvents
      { issueKey := "ABC-7", issueType := "Bug", summary := "S"
        assignee := "Ann", reopenLog := "no dates here\nAssignee: X only" }
      = [] :=
  (C4_event_extraction
    { issueKey := "ABC-7", issueType := "Bug", summary := "S"
      assignee := "Ann", reopenLog := "no dates here\nAssignee: X only" }).2
    (by decide)

/-- Claim C10: on a date-bearing line where the `Assignee:` marker is
followed only by whitespace, the emitted event's assignee is the empty
string — the marker suppresses the fallback to the row's Assignee column
even though the captured name is empty. -/
theorem C10_empty_marker_suppresses_fallback (row : CsvRow)
    (line d : String) (r : List Char)
    (hdate : findDate line = some d)
    (hmarker : afterMarkerL line.toList = some r)
    (hws : pyStrip (String.mk r) = "") :
    extractLoop row [line]
      = [{ issueKey := row.issueKey, issueType := row.issueType
           summary := row.summary, assignee := "", date := d }] := by
  have hassn : findAssignee line = some "" := by
    rw [findAssignee, hmarker, Option.map_some', hws]
  simp [extractLoop, hdate, mkEvent, hassn]

/-- Claim C10 witness: a line with a trailing-whitespace marker yields an
event with empty assignee although the row's own assignee is nonempty. -/
theorem C10_empty_marker_suppresses_fallback_witness :
    extractLoop
      { issueKey := "ABC-9", issueType := "Bug", summary := "S"
        assignee := "Fallback", reopenLog := "" }
      ["2025-09-01 reopened Assignee:   "]
      = [{ issueKey := "ABC-9", issueType := "Bug", summary := "S"
           assignee := "", date := "2025-09-01" }] :=
  C10_empty_marker_suppresses_fallback
    { issueKey := "ABC-9", issueType := "Bug", summary := "S"
      assignee := "Fallback", reopenLog := "" }
    "2025-09-01 reopened Assignee:   " "2025-09-01" [' ', ' ', ' ']
    (by decide) (by decide) (by decide)

/-- Claim C5: given a well-formed target month, the aggregator retains
exactly the events whose date parses to a calendar date lying in the target
month (unparseable dates are discarded, not fatal); `2025-08-31` is excluded
and `2025-09-01` included for target `2025-09`. -/
theorem C5_month_filter (events : List Event) (month : String)
    (hfmt : monthFormat month = true) :
    filterMonth events month
      = events.filter (fun e =>
          match parseDate e.date with
          | some (y, m, _) => monthStr y m == month
          | none => false)
    ∧ filterMonth
        [{ issueKey := "K", issueType := "T", summary := "S", assignee := "A"
           date := "2025-08-31" },
         { issueKey := "K", issueType := "T", summary := "S", assignee := "A"
           date := "2025-09-01" }] "2025-09"
      = [{ issueKey := "K", issueType := "T", summary := "S", assignee := "A"
           date := "2025-09-01" }] := by
  refine ⟨?_, by decide⟩
  apply List.filter_congr
  intro e _
  rcases h : parseDate e.date with _ | ⟨y, m, d⟩
  · show (periodStr none == month) = false
    rw [beq_eq_false_iff_ne]
    intro hEq
    have hlen := monthFormat_length hfmt
    rw [← hEq] at hlen
    exact absurd hlen (by decide)
  · rfl

/-- Claim C5 witness: the filter characterisation and the boundary cases at
the concrete target month `2025-09`. -/
theorem C5_month_filter_witness :
    filterMonth
        [{ issueKey := "K", issueType := "T", summary := "S", assignee := "A"
           date := "2025-08-31" },
         { issueKey := "K", issueType := "T", summary := "S", assignee := "A"
           date := "2025-09-01" }] "2025-09"
      = [{ issueKey := "K", issueType := "T", summary := "S", assignee := "A"
           date := "2025-09-01" }] :=
  (C5_month_filter [] "2025-09" (by decide)).2

/-- Claim C6: flattening an issue yields a row where the issue type is empty
when absent, both assignee fields are empty when the issue is unassigned,
the reopen count is empty when null, and the reopen log is the `"; "`-joined
string of a multi-valued value, empty when null, and the value verbatim when
a string. -/
theorem C6_flatten_defaults (issue : IssueJson) :
    ((issue.fields.getD emptyFieldsJson).issuetype = none →
      (flattenIssue issue).get? 1 = some "")
    ∧ ((issue.fields.getD emptyFieldsJson).assignee = none →
      (flattenIssue issue).get? 4 = some ""
      ∧ (flattenIssue issue).get? 5 = some "")
    ∧ ((issue.fields.getD emptyFieldsJson).reopenCount = .nullv →
      (flattenIssue issue).get? 6 = some "")
    ∧ ((issue.fields.getD emptyFieldsJson).reopenLog = .nullv →
      (flattenIssue issue).get? 7 = some "")
    ∧ (∀ s, (issue.fields.getD emptyFieldsJson).reopenLog = .strv s →
      (flattenIssue issue).get? 7 = some s)
    ∧ (∀ l, (issue.fields.getD emptyFieldsJson).reopenLog = .listv l →
      (flattenIssue issue).get? 7 = some (pyJoin "; " l)) := by
  refine ⟨?_, ?_, ?_, ?_, ?_, ?_⟩
  · intro h; simp [flattenIssue, h]
  · intro h; simp [flattenIssue, h]
  · intro h; simp [flattenIssue, h]
  · intro h; simp [flattenIssue, h]
  · intro s h; simp [flattenIssue, h]
  · intro l h; simp [flattenIssue, h]

/-- Claim C6 witness: an unassigned issue with absent issue type, null
reopen count and a two-element reopen log flattens to empty
type/assignee/count cells and a joined log cell. -/
theorem C6_flatten_defaults_witness :
    ((flattenIssue
        { key := some "ABC-1", id := some "100"
          fields := some
            { issuetype := none, assignee := none, summary := some "Sum"
              reopenCount := .nullv, reopenLog := .listv ["a", "b"] } }).get? 1
      = some "")
    ∧ ((flattenIssue
        { key := some "ABC-1", id := some "100"
          fields := some
            { issuetype := none, assignee := none, summary := some "Sum"
              reopenCount := .nullv, reopenLog := .listv ["a", "b"] } }).get? 4
      = some ""
      ∧ (flattenIssue
        { key := some "ABC-1", id := some "100"
          fields := some
            { issuetype := none, assignee := none, summary := some "Sum"
              reopenCount := .nullv, reopenLog := .listv ["a", "b"] } }).get? 5
      = some "")
    ∧ ((flattenIssue
        { key := some "ABC-1", id := some "100"
          fields := some
            { issuetype := none, assignee := none, summary := some "Sum"
              reopenCount := .nullv, reopenLog := .listv ["a", "b"] } }).get? 6
      = some "")
    ∧ ((flattenIssue
        { key := some "ABC-1", id := some "100"
          fields := some
            { issuetype := none, assignee := none, summary := some "Sum"
              reopenCount := .nullv, reopenLog := .listv ["a", "b"] } }).get? 7
      = some (pyJoin "; " ["a", "b"])) := by
  refine ⟨?_, ?_, ?_, ?_⟩
  · exact (C6_flatten_defaults _).1 rfl
  · exact (C6_flatten_defaults _).2.1 rfl
  · exact (C6_flatten_defaults _).2.2.1 rfl
  · exact (C6_flatten_defaults _).2.2.2.2.2 ["a", "b"] rfl

/-- Claim C7: permuting the input rows leaves both report outputs (the
grouped, sorted by-user and by-ticket files) unchanged. -/
theorem C7_permutation_invariance (rows₁ rows₂ : List CsvRow)
    (month : String) (h : rows₁.Perm rows₂) :
    userFile rows₁ month = userFile rows₂ month
    ∧ ticketFile rows₁ month = ticketFile rows₂ month := by
  constructor
  · unfold userFile
    rw [byUser_perm h month]
  · unfold ticketFile
    rw [byTicket_perm h month]

/-- Claim C7 witness: swapping two concrete rows leaves both report files
unchanged. -/
theorem C7_permutation_invariance_witness :
    userFile [exRowA, exRowB] "2025-09" = userFile [exRowB, exRowA] "2025-09"
    ∧ ticketFile [exRowA, exRowB] "2025-09"
      = ticketFile [exRowB, exRowA] "2025-09" :=
  C7_permutation_invariance [exRowA, exRowB] [exRowB, exRowA] "2025-09"
    (List.Perm.swap exRowB exRowA [])

/-- Claim C8: when no event survives date parsing and the month filter, both
report files are still produced and contain only their header row. -/
theorem C8_empty_reports (rows : List CsvRow) (month : String)
    (h : filterMonth (allEvents rows) month = []) :
    userFile rows month = [userHeader]
    ∧ ticketFile rows month = [ticketHeader] := by
  unfold userFile ticketFile byUser byTicket
  by_cases h0 : allEvents rows = []
  · rw [if_pos h0, if_pos h0]
    exact ⟨rfl, rfl⟩
  · rw [if_neg h0, if_neg h0, h]
    constructor <;> simp [groupCounts, List.mergeSort_nil]

/-- Claim C8 witness: one extracted event, filtered out by a different
target month, still yields header-only files. -/
theorem C8_empty_reports_witness :
    userFile [exRowA] "2024-02" = [userHeader]
    ∧ ticketFile [exRowA] "2024-02" = [ticketHeader] :=
  C8_empty_reports [exRowA] "2024-02" (by decide)

/-- Claim C1 counterexample: candidate 1 fails with HTTP 500 — a generic
error, not any "removed" signal — yet the search does not abort: it falls
through to candidate 2 and returns its body. -/
theorem C1_counterexample :
    jiraSearchAny
      { c1 := .httpFail 500
        c2 := .ok { issues := [], startAt := some 0, maxResults := some 100
                    total := some 0 }
        c3 := .exc } 0
      = some { issues := [], startAt := some 0, maxResults := some 100
               total := some 0 }
    ∧ jiraSearchAny
      { c1 := .httpFail 500
        c2 := .ok { issues := [], startAt := some 0, maxResults := some 100
                    total := some 0 }
        c3 := .exc } 0
      ≠ none := by
  exact ⟨rfl, by decide⟩

/-- Claim C1 (amended): any failure of a candidate — non-success status or
exception alike — causes fallback to the next candidate in order, and the
search aborts exactly when all three candidates fail. -/
theorem C1_fallback_on_any_failure (o : Outcomes) (s : Nat) :
    (isOkR o.c1 = false → jiraSearchAny o s = fallback23 o.c2 o.c3)
    ∧ (jiraSearchAny o s = none ↔
        isOkR o.c1 = false ∧ isOkR o.c2 = false ∧ isOkR o.c3 = false) := by
  rcases o with ⟨c1, c2, c3⟩
  constructor
  · intro h1
    cases c1 with
    | ok rs => simp [isOkR] at h1
    | httpFail st => cases c2 <;> cases c3 <;> rfl
    | exc => cases c2 <;> cases c3 <;> rfl
  · cases c1 with
    | ok rs => cases rs <;> simp [jiraSearchAny, jiraSearchAnyE, isOkR]
    | httpFail st =>
      cases c2 <;> cases c3 <;> simp [jiraSearchAny, jiraSearchAnyE, isOkR]
    | exc =>
      cases c2 <;> cases c3 <;> simp [jiraSearchAny, jiraSearchAnyE, isOkR]

/-- Claim C1 witness: with candidate 1 failing (404) the search result is
exactly the candidate-2/candidate-3 fallback. -/
theorem C1_fallback_on_any_failure_witness :
    jiraSearchAny { c1 := .httpFail 404, c2 := .exc, c3 := .httpFail 500 } 0
      = fallback23 .exc (.httpFail 500) :=
  (C1_fallback_on_any_failure
    { c1 := .httpFail 404, c2 := .exc, c3 := .httpFail 500 } 0).1 rfl

/-- Claim C2 counterexample: in a two-page run whose first page is served by
candidate 1 (candidate 0 failed with a 500), the second page request probes
candidate 0 again and is served by it — the trace of serving candidates is
`[1, 0]`, so the successful endpoint of page one is not adopted for the
rest of the run. -/
theorem C2_counterexample :
    runExport oracleReprobe 5 = some ([], [1, 0]) := by decide

/-- Claim C2 (amended): no endpoint is adopted across pages — every page
request retries the candidates in the fixed preference order from the
first, so the candidate serving page `i` is always the first candidate that
succeeds for that page's own requests, independent of previous pages. -/
theorem C2_no_endpoint_adoption (oracle : Nat → Outcomes) (fuel : Nat)
    (out : List (List String) × List Nat)
    (h : runExport oracle fuel = some out) :
    ∀ i (hi : i < out.2.length),
      some (out.2.get ⟨i, hi⟩) = firstOkEndpoint (oracle i) := by
  intro i hi
  have := runPages_trace oracle fuel 0 0 none out h i hi
  simpa using this

/-- Claim C2 witness: in the concrete two-page run, page 0 is served by the
first successful candidate of page 0's own outcomes (candidate 1). -/
theorem C2_no_endpoint_adoption_witness :
    some (1 : Nat) = firstOkEndpoint (oracleReprobe 0) :=
  C2_no_endpoint_adoption oracleReprobe 5 ([], [1, 0]) (by decide) 0
    (by decide)

/-- Claim C3 counterexample: for the request `"reopen"` against descriptors
named `"reopen x"` and `"reopen [y]"`, the code returns the earlier
descriptor's prefix match (`f1`) while the spec's strategy order — all
normalized-equality matches before any prefix match — returns `f2`. -/
theorem C3_counterexample :
    resolveCfId "reopen" "" exFieldsMixed = some ("f1", .vStarts)
    ∧ resolveSpecOrder "reopen" exFieldsMixed = some "f2"
    ∧ (resolveCfId "reopen" "" exFieldsMixed).map Prod.fst
      ≠ resolveSpecOrder "reopen" exFieldsMixed := by
  refine ⟨by decide, by decide, by decide⟩

/-- Claim C3 (amended): the resolver normalizes the requested name and
matches by: exact (lowercased full-name) lookup first; then a single
in-order scan of descriptors in which each descriptor is tested for
normalized equality and then for prefix match (the two strategies are
interleaved per descriptor, so an earlier descriptor's prefix match can
precede a later descriptor's normalized match); then a substring scan.
Requesting `"Reopen log"` against `"Reopen log [Short text]"` resolves via
the bracket-stripped normalized match. -/
theorem C3_name_resolution :
    resolveCfId "Reopen log" "" exFieldsBracket
      = some ("customfield_10001", .vNorm)
    ∧ (∀ (fields : List JField) (wanted : String) (lst : List JField),
        List.lookup (normalizeName wanted) (buildByName fields) = some lst →
        resolveCfId wanted "" fields = some (headIdOf lst, .vExact))
    ∧ resolveCfId "reopen" "" exFieldsMixed = some ("f1", .vStarts) := by
  refine ⟨by decide, ?_, by decide⟩
  intro fields wanted lst hlook
  unfold resolveCfId
  rw [if_neg (by simp)]
  simp only [hlook]

/-- Claim C3 witness: an exact-name lookup hit resolves via the exact
rule. -/
theorem C3_name_resolution_witness :
    resolveCfId "Reopen Count" ""
      [{ id := "f9", name := "Reopen Count" }]
      = some ("f9", .vExact) :=
  C3_name_resolution.2.1 [{ id := "f9", name := "Reopen Count" }]
    "Reopen Count" [{ id := "f9", name := "Reopen Count" }] (by decide)
